import Mathlib

/-!
Shallow embedding of the manta-chum load generator: the pieces of src/main.rs,
src/worker.rs and src/writer.rs that the verified properties are about. Rust
unsigned integers are modelled as `Nat` with explicit wrapping (`% 2 ^ w`)
where the source performs arithmetic on them; Rust panics are modelled as
`none` / dedicated panic constructors; channel and thread behaviour is
modelled by explicit state passing.
-/

namespace Chum

/-- Operation kinds, from worker.rs (`enum Operation`). -/
inductive Operation where
  | Read
  | Write
  | Delete
  | Error
  deriving DecidableEq

/-- One result record emitted per completed operation, from worker.rs
(`struct WorkerInfo`). The opaque `ThreadId` is modelled as a `Nat`;
`size` is a `u64`; `ttfb` and `rtt` are `u128` millisecond counts. -/
structure WorkerInfo where
  id : Nat
  op : Operation
  size : Nat
  ttfb : Nat
  rtt : Nat
  deriving DecidableEq

/-- Error value carried by worker results. `ChumError` is declared in utils.rs
(not under src/); worker.rs and writer.rs only construct it from a message
string and read it back with `to_string`, so it is modelled as that string. -/
structure ChumError where
  msg : String
  deriving DecidableEq

/-- Modulus of Rust `u64` arithmetic. -/
def w64 : Nat := 2 ^ 64

/-- Modulus of Rust `u128` arithmetic. -/
def w128 : Nat := 2 ^ 128

/-- Aggregated statistics, from worker.rs (`struct WorkerStat`): `objs` and
`data` are `u64`, `ttfb` and `rtt` are `u128`. -/
structure WorkerStat where
  objs : Nat
  data : Nat
  ttfb : Nat
  rtt : Nat
  deriving DecidableEq

/-- `WorkerStat::new` (worker.rs): all four fields start at zero. -/
def WorkerStat.new : WorkerStat := ⟨0, 0, 0, 0⟩

/-- `WorkerStat::add_result` (worker.rs lines 55-60): `+=` on every field;
Rust release-mode unsigned addition wraps at the type's modulus. -/
def WorkerStat.add_result (s : WorkerStat) (res : WorkerInfo) : WorkerStat where
  objs := (s.objs + 1) % w64
  data := (s.data + res.size) % w64
  ttfb := (s.ttfb + res.ttfb) % w128
  rtt := (s.rtt + res.rtt) % w128

/-- `WorkerStat::clear` (worker.rs): zero every field. -/
def WorkerStat.clear (_s : WorkerStat) : WorkerStat := ⟨0, 0, 0, 0⟩

/-- Field-wise merge of two partial aggregates. This follows the spec's words
"merging two partial aggregates field-wise" (worker.rs has no such helper;
the property under test is the algebra of `add_result`), with the same
wrapping arithmetic as `add_result`. -/
def WorkerStat.merge (a b : WorkerStat) : WorkerStat where
  objs := (a.objs + b.objs) % w64
  data := (a.data + b.data) % w64
  ttfb := (a.ttfb + b.ttfb) % w128
  rtt := (a.rtt + b.rtt) % w128

/-- Integer division as Rust performs it: a zero divisor panics, modelled as
`none`. -/
def rustDiv (a b : Nat) : Option Nat :=
  if b = 0 then none else some (a / b)

/-- `bytes_to_human` (worker.rs lines 41-44): the number interpolated into
the "...MB" string, `bytes / 1024 / 1024` (constant divisors, never zero). -/
def bytes_to_human (bytes : Nat) : Nat := bytes / 1024 / 1024

/-- Values interpolated by `WorkerStat::serialize_relative` (worker.rs lines
70-74): object count, megabytes, average ttfb, average rtt. -/
structure RelativeLine where
  objs : Nat
  mb : Nat
  avg_ttfb : Nat
  avg_rtt : Nat
  deriving DecidableEq

/-- `WorkerStat::serialize_relative` (worker.rs lines 70-74): both averages
divide by `self.objs`, so a zero object count makes Rust panic (`none`). -/
def WorkerStat.serialize_relative (s : WorkerStat) : Option RelativeLine :=
  match rustDiv s.ttfb s.objs, rustDiv s.rtt s.objs with
  | some a, some b => some ⟨s.objs, bytes_to_human s.data, a, b⟩
  | _, _ => none

/-- Values interpolated by `WorkerStat::serialize_absolute` (worker.rs lines
80-84): object count, megabytes, elapsed seconds, objects per second,
megabytes per second. -/
structure AbsoluteLine where
  objs : Nat
  mb : Nat
  secs : Nat
  objs_per_s : Nat
  mb_per_s : Nat
  deriving DecidableEq

/-- `WorkerStat::serialize_absolute` (worker.rs lines 80-84): the divisor is
the elapsed time `d`, which Rust panics on when zero (`none`). -/
def WorkerStat.serialize_absolute (s : WorkerStat) (d : Nat) : Option AbsoluteLine :=
  match rustDiv s.objs d, rustDiv s.data d with
  | some ops, some bps => some ⟨s.objs, bytes_to_human s.data, d, ops, bytes_to_human bps⟩
  | _, _ => none

/-- Per-kind tick report: either the no-activity notice or a rendered stats
line. -/
inductive KindReport where
  | noActivity
  | line (r : RelativeLine)
  deriving DecidableEq

/-- Modelled from the spec: the per-kind rendering step of `collect_stats`
(utils.rs) is not under src/. Spec section 4.4: "Per-kind averages are
computed only when the kind's tick object-count is non-zero; a zero-activity
kind is reported as 'no activity' rather than attempting a division." -/
def render_kind (s : WorkerStat) : Option KindReport :=
  if s.objs = 0 then some KindReport.noActivity
  else (s.serialize_relative).map KindReport.line

/-- State of one worker's stop-signal channel: how many `()` messages are
queued and whether the sending half is still alive. -/
structure SignalState where
  pending : Nat
  senderAlive : Bool
  deriving DecidableEq

/-- Outcomes of `Receiver::try_recv`. -/
inductive TryRecvOutcome where
  | msg
  | empty
  | disconnected
  deriving DecidableEq

/-- `Receiver::try_recv` on the signal channel: a queued message is consumed;
otherwise the poll reports `Empty` while the sender lives and `Disconnected`
once it is gone. -/
def try_recv (s : SignalState) : TryRecvOutcome × SignalState :=
  if s.pending > 0 then (TryRecvOutcome.msg, ⟨s.pending - 1, s.senderAlive⟩)
  else if s.senderAlive then (TryRecvOutcome.empty, s)
  else (TryRecvOutcome.disconnected, s)

/-- `Worker::should_stop` (worker.rs lines 236-241): `Ok(_)` and
`Err(Disconnected)` both mean stop, `Err(Empty)` means keep going. -/
def should_stop (s : SignalState) : Bool × SignalState :=
  match try_recv s with
  | (TryRecvOutcome.msg, s2) => (true, s2)
  | (TryRecvOutcome.disconnected, s2) => (true, s2)
  | (TryRecvOutcome.empty, s2) => (false, s2)

instance {ε α : Type} [DecidableEq ε] [DecidableEq α] : DecidableEq (Except ε α) := fun a b =>
  match a, b with
  | Except.ok x, Except.ok y =>
    if h : x = y then Decidable.isTrue (by rw [h]) else Decidable.isFalse (by simp [h])
  | Except.error x, Except.error y =>
    if h : x = y then Decidable.isTrue (by rw [h]) else Decidable.isFalse (by simp [h])
  | Except.ok _, Except.error _ => Decidable.isFalse (by simp)
  | Except.error _, Except.ok _ => Decidable.isFalse (by simp)

/-- Outcome of one `Worker::process_result` call (worker.rs lines 171-199):
the messages sent on the results channel (none or one), the signal-channel
state after the poll, and whether the stop signal was observed. -/
structure ProcessOut where
  sends : List (Except ChumError WorkerInfo)
  sig : SignalState
  observedStop : Bool
  deriving DecidableEq

/-- `Worker::process_result` (worker.rs lines 171-199). `Ok(Some(wr))` polls
the stop signal and either discards the record or sends `Ok(wr)`;
`Ok(None)` does nothing; `Err(e)` polls the stop signal and either logs and
discards or sends `Err(e)`. -/
def process_result (sig : SignalState) (res : Except ChumError (Option WorkerInfo)) :
    ProcessOut :=
  match res with
  | Except.ok (some wr) =>
    let p := should_stop sig
    if p.1 then ⟨[], p.2, true⟩ else ⟨[Except.ok wr], p.2, false⟩
  | Except.ok none => ⟨[], sig, false⟩
  | Except.error e =>
    let p := should_stop sig
    if p.1 then ⟨[], p.2, true⟩ else ⟨[Except.error e], p.2, false⟩

/-- Accumulated behaviour of a run of `Worker::work` iterations: all channel
sends in order, the final signal-channel state, and one flag per iteration
recording whether that iteration's `process_result` observed the stop
signal. -/
structure RunOut where
  sends : List (Except ChumError WorkerInfo)
  sig : SignalState
  flags : List Bool
  deriving DecidableEq

/-- The loop of `Worker::work` (worker.rs lines 201-218). The body is
`loop { match ...choose... { ... process_result ... }; sleep }` and contains
no `break` or `return`: every iteration dispatches one backend call and
processes its result, whatever earlier iterations observed. `results` is the
stream of backend outcomes returned by the successively dispatched
operations (operation sampling itself is modelled by `dispatch` below). -/
def work_run (sig : SignalState) (results : List (Except ChumError (Option WorkerInfo))) :
    RunOut :=
  match results with
  | [] => ⟨[], sig, []⟩
  | r :: rest =>
    let o := process_result sig r
    let k := work_run o.sig rest
    ⟨o.sends ++ k.sends, k.sig, o.observedStop :: k.flags⟩

/-- `SliceRandom::choose`: `None` on an empty slice, otherwise the element at
the rng-chosen index; quantifying over `idx` covers every possible draw. -/
def choose (ops : List String) (idx : Nat) : Option String :=
  if h : ops.length = 0 then none
  else some (ops.get ⟨idx % ops.length, Nat.mod_lt idx (Nat.pos_of_ne_zero h)⟩)

/-- Result of the operation-selection step of one `Worker::work` iteration. -/
inductive Dispatch where
  | panic (msg : String)
  | op (o : Operation)
  deriving DecidableEq

/-- Operation sampling and dispatch of one `Worker::work` iteration
(worker.rs lines 207-214): `expect` on a failed choice panics, "r"/"w"/"d"
dispatch to `read`/`write`/`delete`, and the `_` match arm panics. -/
def dispatch (ops : List String) (idx : Nat) : Dispatch :=
  match choose ops idx with
  | none => Dispatch.panic "choosing operation failed"
  | some s =>
    if s = "r" then Dispatch.op Operation.Read
    else if s = "w" then Dispatch.op Operation.Write
    else if s = "d" then Dispatch.op Operation.Delete
    else Dispatch.panic "unrecognized operator"

/-- Rust `char::to_ascii_lowercase`: lowercase the ASCII uppercase range,
leave everything else alone. -/
def to_ascii_lowercase (c : Char) : Char :=
  if 65 ≤ c.toNat ∧ c.toNat ≤ 90 then Char.ofNat (c.toNat + 32) else c

/-- Rust `str::split(':')` collected into a vector: the list of (possibly
empty) chunks between colons. It is never empty. -/
def split_colon : List Char → List (List Char)
  | [] => [[]]
  | c :: rest =>
    if c = ':' then [] :: split_colon rest
    else
      match split_colon rest with
      | [] => [[c]]
      | t :: ts => (c :: t) :: ts

/-- Backend selected by `Worker::new`. -/
inductive Protocol where
  | webdav
  | s3
  | fs
  deriving DecidableEq

/-- `Worker::new` (worker.rs lines 131-169), restricted to what it does with
`target`: `tok = target.split(':')`, then `tok[1]` (an index-out-of-bounds
panic when the string holds no colon), then the ASCII-lowercased `tok[0]`
selects the backend and any other scheme hits `panic!("unknown client
protocol")`. `none` models a panic, `some` a constructed backend. -/
def worker_new (target : List Char) : Option Protocol :=
  let tok := split_colon target
  match tok[0]?, tok[1]? with
  | some t0, some _ =>
    let protocol := t0.map to_ascii_lowercase
    if protocol = "webdav".toList then some Protocol.webdav
    else if protocol = "s3".toList then some Protocol.s3
    else if protocol = "fs".toList then some Protocol.fs
    else none
  | _, _ => none

/-- Data-cap variants, declared in utils.rs (not under src/) and constructed
in main.rs: `Percentage` and `LogicalData` (the absolute-bytes form).
Numeric payloads are modelled as `Nat`. -/
inductive DataCap where
  | Percentage (p : Nat)
  | LogicalData (n : Nat)
  deriving DecidableEq

/-- Cap selection in `main` (main.rs lines 265-277): `p` is the parsed `-p`
flag, `m` the parsed `-m` flag with `parse_human` already applied. The code
is `if let Some(perc) = p { Percentage } else if let Some(logical) = m
{ LogicalData }`, so it tests `p` first. -/
def choose_cap (p : Option Nat) (m : Option Nat) : Option DataCap :=
  match p with
  | some perc => some (DataCap.Percentage perc)
  | none =>
    match m with
    | some logical => some (DataCap.LogicalData logical)
    | none => none

/-- Outcome of `Worker::send_info` for the sending worker's thread. -/
inductive SendOutcome where
  | delivered
  | workerPanic (msg : String)
  deriving DecidableEq

/-- `Worker::send_info` (worker.rs lines 226-234): a send error (the
consuming half of the results channel is gone) panics, which in Rust
unwinds only the calling worker thread. -/
def send_info (consumerAlive : Bool) : SendOutcome :=
  if consumerAlive then SendOutcome.delivered
  else SendOutcome.workerPanic "failed to send result"

/-- Shutdown joins in `main` (main.rs lines 319-327): the stat thread, every
worker thread and then the optional statemap thread are joined in order,
each through `.expect(..)`; `join` on a panicked thread returns `Err`, so
the `expect` aborts `main` right there. Input: per-thread panicked flags in
join order. Output: how many threads `main` joined before exiting and
whether it completed cleanly. -/
def join_all : List Bool → Nat × Bool
  | [] => (0, true)
  | p :: rest =>
    if p then (1, false)
    else
      let r := join_all rest
      (r.1 + 1, r.2)

namespace writer

/-- Result record as writer.rs constructs it (writer.rs predates the
`Operation` enum: its `op` field is the string constant `OP`). -/
structure WorkerInfo where
  id : Nat
  op : String
  size : Nat
  ttfb : Nat
  rtt : Nat
  deriving DecidableEq

/-- `OP` (writer.rs line 29). -/
def OP : String := "write"

/-- The post-transfer tail of `impl WorkerTask for &Writer` (writer.rs lines
108-129): given the HTTP response `code`, the object `path` and the already
chosen `size`, thread `id` and measured `ttfb`/`rtt`, a 201 or 204 response
inserts `path` into the shared object queue and returns the populated
record; any other code returns a `ChumError` and inserts nothing. The
second component lists the queue insertions performed (the queue itself
lives in queue.rs, outside src/; only insertion matters here). -/
def work (code : Nat) (path : String) (id size ttfb rtt : Nat) :
    Except ChumError (Option WorkerInfo) × List String :=
  if code = 201 ∨ code = 204 then
    (Except.ok (some ⟨id, OP, size, ttfb, rtt⟩), [path])
  else
    (Except.error ⟨"Writing " ++ path ++ " failed: " ++ toString code⟩, [])

end writer

/-! Helper lemmas shared by the claim theorems. -/

theorem w64_pos : 0 < w64 := by unfold w64; positivity

theorem w128_pos : 0 < w128 := by unfold w128; positivity

theorem mod_add_flip (a b c m : Nat) : ((a + b) % m + c) % m = ((a + c) % m + b) % m := by
  rw [Nat.mod_add_mod, Nat.mod_add_mod, Nat.add_right_comm]

theorem add_result_right_comm (s : WorkerStat) (r1 r2 : WorkerInfo) :
    (s.add_result r1).add_result r2 = (s.add_result r2).add_result r1 := by
  simp only [WorkerStat.add_result, WorkerStat.mk.injEq]
  refine ⟨?_, ?_, ?_, ?_⟩ <;> first | trivial | exact mod_add_flip ..

instance : RightCommutative WorkerStat.add_result := ⟨add_result_right_comm⟩

/-- Every field of a `WorkerStat` lies below its machine-width modulus. -/
def WorkerStat.Normalized (s : WorkerStat) : Prop :=
  s.objs < w64 ∧ s.data < w64 ∧ s.ttfb < w128 ∧ s.rtt < w128

theorem new_normalized : WorkerStat.new.Normalized :=
  ⟨w64_pos, w64_pos, w128_pos, w128_pos⟩

theorem add_result_normalized (s : WorkerStat) (r : WorkerInfo) :
    (s.add_result r).Normalized :=
  ⟨Nat.mod_lt _ w64_pos, Nat.mod_lt _ w64_pos, Nat.mod_lt _ w128_pos, Nat.mod_lt _ w128_pos⟩

theorem foldl_normalized (l : List WorkerInfo) (s : WorkerStat) (hs : s.Normalized) :
    (l.foldl WorkerStat.add_result s).Normalized := by
  induction l generalizing s with
  | nil => exact hs
  | cons r rest ih => exact ih _ (add_result_normalized s r)

theorem merge_new_right (s : WorkerStat) (h : s.Normalized) : s.merge WorkerStat.new = s := by
  cases s with
  | mk o d t r =>
    obtain ⟨h1, h2, h3, h4⟩ := h
    simp only [WorkerStat.merge, WorkerStat.new, Nat.add_zero, WorkerStat.mk.injEq]
    exact ⟨Nat.mod_eq_of_lt h1, Nat.mod_eq_of_lt h2, Nat.mod_eq_of_lt h3, Nat.mod_eq_of_lt h4⟩

theorem mod_add_assoc (x y z m : Nat) : ((x + y) % m + z) % m = (x + (y + z) % m) % m := by
  rw [Nat.mod_add_mod, Nat.add_mod_mod, Nat.add_assoc]

theorem add_result_merge (a b : WorkerStat) (r : WorkerInfo) :
    (a.merge b).add_result r = a.merge (b.add_result r) := by
  simp only [WorkerStat.add_result, WorkerStat.merge, WorkerStat.mk.injEq]
  exact ⟨mod_add_assoc .., mod_add_assoc .., mod_add_assoc .., mod_add_assoc ..⟩

theorem foldl_merge (l : List WorkerInfo) (a b : WorkerStat) :
    l.foldl WorkerStat.add_result (a.merge b) = a.merge (l.foldl WorkerStat.add_result b) := by
  induction l generalizing b with
  | nil => rfl
  | cons r rest ih => simp [List.foldl_cons, add_result_merge, ih]

theorem choose_mem {ops : List String} {idx : Nat} {s : String}
    (h : choose ops idx = some s) : s ∈ ops := by
  unfold choose at h
  split at h
  · exact absurd h (by simp)
  · exact Option.some.inj h ▸ List.get_mem ops _ _

theorem choose_isSome {ops : List String} (idx : Nat) (hne : ops ≠ []) :
    ∃ s, choose ops idx = some s := by
  have hlen : ¬ ops.length = 0 := fun h => hne (List.length_eq_zero.mp h)
  unfold choose
  simp only [dif_neg hlen]
  exact ⟨_, rfl⟩

theorem split_colon_ne_nil (l : List Char) : split_colon l ≠ [] := by
  induction l with
  | nil => simp [split_colon]
  | cons c rest _ =>
    by_cases hc : c = ':'
    · simp [split_colon, hc]
    · simp only [split_colon, if_neg hc]
      cases split_colon rest with
      | nil => simp
      | cons t ts => simp

theorem split_colon_no_colon {l : List Char} (h : ':' ∉ l) : split_colon l = [l] := by
  induction l with
  | nil => rfl
  | cons c rest ih =>
    have hc : c ≠ ':' := fun he => h (he ▸ List.mem_cons_self c rest)
    have hr : ':' ∉ rest := fun hm => h (List.mem_cons_of_mem c hm)
    simp [split_colon, hc, ih hr]

theorem split_colon_append {s : List Char} (h : ':' ∉ s) (rest : List Char) :
    split_colon (s ++ ':' :: rest) = s :: split_colon rest := by
  induction s with
  | nil => simp [split_colon]
  | cons c cs ih =>
    have hc : c ≠ ':' := fun he => h (he ▸ List.mem_cons_self c cs)
    have hcs : ':' ∉ cs := fun hm => h (List.mem_cons_of_mem c hm)
    simp [split_colon, hc, ih hcs]

theorem split_colon_cons_of_ne_nil {l : List Char} :
    ∃ t0 ts, split_colon l = t0 :: ts := by
  cases hs : split_colon l with
  | nil => exact absurd hs (split_colon_ne_nil l)
  | cons a b => exact ⟨a, b, rfl⟩

theorem worker_new_eval {scheme : List Char} (hcol : ':' ∉ scheme) (rest : List Char) :
    worker_new (scheme ++ ':' :: rest)
      = (if scheme.map to_ascii_lowercase = "webdav".toList then some Protocol.webdav
        else if scheme.map to_ascii_lowercase = "s3".toList then some Protocol.s3
        else if scheme.map to_ascii_lowercase = "fs".toList then some Protocol.fs
        else none) := by
  obtain ⟨t0, ts, hsp⟩ := split_colon_cons_of_ne_nil (l := rest)
  simp only [worker_new, split_colon_append hcol, hsp, List.getElem?_cons_zero,
    List.getElem?_cons_succ]

/-! Claim theorems. -/

/-- C1: with both a percentage cap and an absolute-bytes cap configured,
`main` passes the percentage variant to the statistics collector, not the
absolute-bytes variant that the claim (and the code's own comment "prefer
-m since it is more specific") calls for: the `if let` chain of main.rs
lines 272-277 tests `-p` first. Evaluated at `-p 50 -m` 1048576 bytes. -/
theorem main_cap_both_flags_percentage_wins :
    choose_cap (some 50) (some 1048576) = some (DataCap.Percentage 50) ∧
    choose_cap (some 50) (some 1048576) ≠ some (DataCap.LogicalData 1048576) := by
  exact ⟨rfl, by decide⟩

/-- C2: the work loop does not terminate when a worker observes the stop
signal: `Worker::work` is an unbroken `loop`, so a run processes every
backend result handed to it, whichever iterations observed the stop.
Concretely, with one stop message pending, the worker observes the stop
while processing an error result (first flag `true`) and nevertheless
begins the next iteration, dispatching and processing one more backend
operation. -/
theorem work_loop_continues_after_stop :
    (∀ (sig : SignalState) (results : List (Except ChumError (Option WorkerInfo))),
      (work_run sig results).flags.length = results.length) ∧
    work_run ⟨1, true⟩
        [Except.error ⟨"backend failure"⟩,
          Except.ok (some ⟨0, Operation.Write, 7, 1, 2⟩)]
      = ⟨[Except.ok ⟨0, Operation.Write, 7, 1, 2⟩], ⟨0, true⟩, [true, false]⟩ := by
  constructor
  · intro sig results
    induction results generalizing sig with
    | nil => rfl
    | cons r rest ih => simp [work_run, ih]
  · rfl

/-- C3: a worker can send a result on the shared channel after having
observed the stop signal. The collector sends one stop message per worker;
with that single message pending and the sender still alive, the worker
observes the stop at its first result and discards it, but the loop does
not terminate, so the next poll reports `Empty` and the second result is
sent. -/
theorem worker_sends_after_observed_stop :
    work_run ⟨1, true⟩
        [Except.ok (some ⟨0, Operation.Write, 128, 3, 4⟩),
          Except.ok (some ⟨0, Operation.Write, 256, 5, 6⟩)]
      = ⟨[Except.ok ⟨0, Operation.Write, 256, 5, 6⟩], ⟨0, true⟩, [true, false]⟩ := by
  rfl

/-- C4: a zero-activity `WorkerStat` renders as the no-activity report with
no division performed: the collector guard (modelled from the spec, the
collector being outside src/) short-circuits before `serialize_relative`,
whose own average computations divide by the zero `objs` (a Rust panic,
modelled as `none`). -/
theorem render_zero_activity_no_division (s : WorkerStat) (h : s.objs = 0) :
    render_kind s = some KindReport.noActivity ∧ s.serialize_relative = none := by
  constructor
  · simp [render_kind, h]
  · simp [WorkerStat.serialize_relative, rustDiv, h]

theorem render_zero_activity_no_division_witness :
    render_kind ⟨0, 4096, 0, 0⟩ = some KindReport.noActivity ∧
    WorkerStat.serialize_relative ⟨0, 4096, 0, 0⟩ = none :=
  render_zero_activity_no_division ⟨0, 4096, 0, 0⟩ rfl

/-- C5 counterexample: with the stat thread finishing cleanly, the first of
two workers panicked and the second still live, `main` joins only two of
the three threads: the `expect` on the panicked join aborts `main` before
the last thread is joined, refuting "the main thread does not exit before
joining every thread even if a worker panics". -/
theorem main_join_aborts_on_worker_panic :
    join_all [false, true, false] = (2, false) ∧ (2 : Nat) ≠ 3 := by
  decide

/-- C5 amended: a failed channel send panics only the sending worker; at
shutdown `main` joins the threads in order and joins every one (exiting
cleanly) when none has panicked, but a panicked thread makes the join's
`expect` abort `main` with only the threads up to and including the
panicked one joined. -/
theorem send_failure_isolated_and_join_order :
    (send_info false = SendOutcome.workerPanic "failed to send result") ∧
    (∀ l : List Bool, (∀ b ∈ l, b = false) → join_all l = (l.length, true)) ∧
    (∀ l1 l2 : List Bool, (∀ b ∈ l1, b = false) →
      join_all (l1 ++ true :: l2) = (l1.length + 1, false)) := by
  refine ⟨rfl, ?_, ?_⟩
  · intro l hl
    induction l with
    | nil => rfl
    | cons b rest ih =>
      have hb : b = false := hl b (List.mem_cons_self b rest)
      have hr := ih (fun x hx => hl x (List.mem_cons_of_mem b hx))
      simp [join_all, hb, hr]
  · intro l1 l2 h1
    induction l1 with
    | nil => simp [join_all]
    | cons b rest ih =>
      have hb : b = false := h1 b (List.mem_cons_self b rest)
      have hr := ih (fun x hx => h1 x (List.mem_cons_of_mem b hx))
      simp [join_all, hb, hr]

theorem send_failure_isolated_and_join_order_witness :
    join_all [false, false, false] = (3, true) :=
  send_failure_isolated_and_join_order.2.1 [false, false, false] (by decide)

/-- C6: when the stop signal is not observed, `process_result` sends exactly
the completed record for an `Ok(Some(wr))` outcome, nothing for the
`Ok(None)` no-op, and the error as an error record for an `Err(e)` outcome
(counted rather than silently dropped). -/
theorem process_result_routes_outcomes (sig : SignalState)
    (h : (should_stop sig).1 = false) :
    (∀ wr : WorkerInfo,
      (process_result sig (Except.ok (some wr))).sends = [Except.ok wr]) ∧
    (process_result sig (Except.ok none)).sends = [] ∧
    (∀ e : ChumError,
      (process_result sig (Except.error e)).sends = [Except.error e]) := by
  refine ⟨fun wr => ?_, rfl, fun e => ?_⟩ <;> simp [process_result, h]

theorem process_result_routes_outcomes_witness :
    (process_result ⟨0, true⟩ (Except.ok (some ⟨0, Operation.Read, 1, 2, 3⟩))).sends
      = [Except.ok ⟨0, Operation.Read, 1, 2, 3⟩] :=
  (process_result_routes_outcomes ⟨0, true⟩ rfl).1 ⟨0, Operation.Read, 1, 2, 3⟩

/-- C7: the writer inserts the new object's path into the shared object
queue exactly when the HTTP response code is 201 or 204, returning the
populated record; every other response code yields a `ChumError` and no
insertion. -/
theorem writer_insert_iff_write_success
    (code : Nat) (path : String) (id size ttfb rtt : Nat) :
    ((code = 201 ∨ code = 204) →
      writer.work code path id size ttfb rtt
        = (Except.ok (some ⟨id, writer.OP, size, ttfb, rtt⟩), [path])) ∧
    (code ≠ 201 → code ≠ 204 →
      writer.work code path id size ttfb rtt
        = (Except.error ⟨"Writing " ++ path ++ " failed: " ++ toString code⟩, [])) := by
  constructor
  · intro h; unfold writer.work; rw [if_pos h]
  · intro h1 h2; unfold writer.work; rw [if_neg (fun hc => hc.elim h1 h2)]

theorem writer_insert_iff_write_success_witness :
    writer.work 201 "chum/a" 0 128 1 2
      = (Except.ok (some ⟨0, writer.OP, 128, 1, 2⟩), ["chum/a"]) ∧
    writer.work 500 "chum/a" 0 128 1 2
      = (Except.error ⟨"Writing chum/a failed: 500"⟩, []) :=
  ⟨(writer_insert_iff_write_success 201 "chum/a" 0 128 1 2).1 (Or.inl rfl),
    (writer_insert_iff_write_success 500 "chum/a" 0 128 1 2).2 (by decide) (by decide)⟩

/-- C8: WorkerStat aggregation is associative and commutative: folding any
reordering of a multiset of records from `WorkerStat::new` equals the
field-wise merge of the folds of any partition of it, so all four totals
agree whatever the interleaving. -/
theorem workerstat_fold_perm_merge (l l1 l2 : List WorkerInfo)
    (h : l.Perm (l1 ++ l2)) :
    l.foldl WorkerStat.add_result WorkerStat.new
      = WorkerStat.merge (l1.foldl WorkerStat.add_result WorkerStat.new)
          (l2.foldl WorkerStat.add_result WorkerStat.new) := by
  rw [h.foldl_eq WorkerStat.new, List.foldl_append]
  conv_lhs =>
    rw [← merge_new_right (l1.foldl WorkerStat.add_result WorkerStat.new)
      (foldl_normalized l1 WorkerStat.new new_normalized)]
  exact foldl_merge l2 _ WorkerStat.new

theorem workerstat_fold_perm_merge_witness :
    List.foldl WorkerStat.add_result WorkerStat.new
        [⟨0, Operation.Write, 256, 5, 6⟩, ⟨1, Operation.Read, 128, 3, 4⟩]
      = WorkerStat.merge
          (List.foldl WorkerStat.add_result WorkerStat.new [⟨1, Operation.Read, 128, 3, 4⟩])
          (List.foldl WorkerStat.add_result WorkerStat.new [⟨0, Operation.Write, 256, 5, 6⟩]) :=
  workerstat_fold_perm_merge _ _ _ (List.Perm.swap _ _ _)

/-- C9: `Worker::new` is partial in the target string: a target with no
colon panics on the `tok[1]` index, a colon-separated target whose
ASCII-lowercased scheme is none of "webdav", "s3", "fs" panics on the
protocol match, and any target of the form scheme:address with a known
scheme (case-insensitively) constructs a backend. -/
theorem worker_new_partial_in_target :
    (∀ t : List Char, ':' ∉ t → worker_new t = none) ∧
    (∀ (scheme rest : List Char), ':' ∉ scheme →
      scheme.map to_ascii_lowercase ≠ "webdav".toList →
      scheme.map to_ascii_lowercase ≠ "s3".toList →
      scheme.map to_ascii_lowercase ≠ "fs".toList →
      worker_new (scheme ++ ':' :: rest) = none) ∧
    (∀ (scheme rest : List Char), ':' ∉ scheme →
      (scheme.map to_ascii_lowercase = "webdav".toList ∨
        scheme.map to_ascii_lowercase = "s3".toList ∨
        scheme.map to_ascii_lowercase = "fs".toList) →
      ∃ p, worker_new (scheme ++ ':' :: rest) = some p) := by
  refine ⟨?_, ?_, ?_⟩
  · intro t ht
    simp [worker_new, split_colon_no_colon ht]
  · intro scheme rest hcol h1 h2 h3
    rw [worker_new_eval hcol rest, if_neg h1, if_neg h2, if_neg h3]
  · intro scheme rest hcol hk
    rcases hk with h | h | h
    · exact ⟨Protocol.webdav, by rw [worker_new_eval hcol rest, if_pos h]⟩
    · refine ⟨Protocol.s3, ?_⟩
      rw [worker_new_eval hcol rest,
        if_neg (fun hw => absurd (h.symm.trans hw) (by decide)), if_pos h]
    · refine ⟨Protocol.fs, ?_⟩
      rw [worker_new_eval hcol rest,
        if_neg (fun hw => absurd (h.symm.trans hw) (by decide)),
        if_neg (fun hw => absurd (h.symm.trans hw) (by decide)), if_pos h]

theorem worker_new_partial_in_target_witness :
    worker_new "nocolon".toList = none ∧
    worker_new ("http".toList ++ ':' :: "127.0.0.1".toList) = none ∧
    ∃ p, worker_new ("WebDAV".toList ++ ':' :: "127.0.0.1".toList) = some p :=
  ⟨worker_new_partial_in_target.1 "nocolon".toList (by decide),
    worker_new_partial_in_target.2.1 "http".toList "127.0.0.1".toList
      (by decide) (by decide) (by decide) (by decide),
    worker_new_partial_in_target.2.2 "WebDAV".toList "127.0.0.1".toList
      (by decide) (Or.inl (by decide))⟩

/-- C10: the operation dispatch of `Worker::work` is total exactly on
well-formed pools: a non-empty pool all of whose tokens lie in
{"r", "w", "d"} never reaches a panic branch; the empty pool panics on the
failed choice; and a drawn token outside that set panics on the `_` match
arm. -/
theorem dispatch_total_iff_valid_pool :
    (∀ (ops : List String) (idx : Nat),
      ops ≠ [] → (∀ s ∈ ops, s = "r" ∨ s = "w" ∨ s = "d") →
      ∃ o, dispatch ops idx = Dispatch.op o) ∧
    (∀ idx, dispatch [] idx = Dispatch.panic "choosing operation failed") ∧
    (∀ (ops : List String) (idx : Nat) (s : String),
      choose ops idx = some s → s ≠ "r" → s ≠ "w" → s ≠ "d" →
      dispatch ops idx = Dispatch.panic "unrecognized operator") := by
  refine ⟨?_, fun idx => rfl, ?_⟩
  · intro ops idx hne hall
    obtain ⟨s, hs⟩ := choose_isSome idx hne
    rcases hall s (choose_mem hs) with h | h | h
    · exact ⟨Operation.Read, by simp [dispatch, hs, h]⟩
    · exact ⟨Operation.Write, by simp [dispatch, hs, h]⟩
    · exact ⟨Operation.Delete, by simp [dispatch, hs, h]⟩
  · intro ops idx s hs h1 h2 h3
    simp [dispatch, hs, h1, h2, h3]

theorem dispatch_total_iff_valid_pool_witness :
    (∃ o, dispatch ["r", "w"] 5 = Dispatch.op o) ∧
    dispatch [] 0 = Dispatch.panic "choosing operation failed" ∧
    dispatch ["x"] 0 = Dispatch.panic "unrecognized operator" :=
  ⟨dispatch_total_iff_valid_pool.1 ["r", "w"] 5 (by decide) (by decide),
    dispatch_total_iff_valid_pool.2.1 0,
    dispatch_total_iff_valid_pool.2.2 ["x"] 0 "x" rfl (by decide) (by decide) (by decide)⟩

end Chum

